import Mathlib

/-!
Shallow embedding of the speech-synthesis endpoint in
`ttsserver/tts_server.py` and proofs about its behaviour.

The Python module defines
  - a pydantic model `TTSRequest` with a required `text` field and an
    `emotion` field defaulting to "hype",
  - a module-level dict `EMOTION_PROMPTS` with the three keys
    "hype", "tense", "calm",
  - a handler `tts` that composes a prompt, calls an external generation
    function, encodes the waveform to WAV at 24000 Hz into an in-memory
    buffer, rewinds the buffer and streams it with media type "audio/wav".

External collaborators (the bark generation function and the soundfile
WAV encoder) are opaque in the source, so the embedding takes them as
function parameters; both may fail, which is modelled with `Except`.
-/

namespace TTSServer

/-- Embedding of the module-level Python dict `EMOTION_PROMPTS` as an
association list, values copied verbatim from the source. -/
def EMOTION_PROMPTS : List (String × String) :=
  [("hype", "Excited esports commentator voice. High energy. Crowd roaring."),
   ("tense", "Low, tense esports caster voice. Controlled breathing."),
   ("calm", "Calm analyst voice. Confident and composed.")]

/-- Embedding of the Python expression `d.get(k, dflt)`: exact,
case-sensitive key lookup returning `dflt` on a miss, never raising. -/
def dictGet : List (String × String) → String → String → String
  | [], _, dflt => dflt
  | (k₀, v) :: rest, k, dflt => if k₀ == k then v else dictGet rest k dflt

/-- Embedding of the pydantic model `TTSRequest`. -/
structure TTSRequest where
  text : String
  emotion : String
deriving Repr, DecidableEq

/-- Embedding of pydantic body parsing for `TTSRequest`: `text` is
required (a missing field is a validation failure, `none`), the string
itself is unconstrained; `emotion` is optional with default "hype". -/
def parseTTSRequest (text? : Option String) (emotion? : Option String) :
    Option TTSRequest :=
  match text? with
  | none => none
  | some t => some { text := t, emotion := emotion?.getD "hype" }

/-- Embedding of the prompt-composition line of the handler, the f-string
interpolating the looked-up prefix, one space, and the raw text. -/
def composePrompt (req : TTSRequest) : String :=
  dictGet EMOTION_PROMPTS req.emotion "" ++ " " ++ req.text

/-- In-memory byte buffer with a read/write position, embedding
`io.BytesIO`. -/
structure Buffer where
  data : List UInt8
  pos : Nat
deriving Repr, DecidableEq

/-- Embedding of `io.BytesIO()`: a fresh empty buffer at position 0. -/
def Buffer.new : Buffer := { data := [], pos := 0 }

/-- Writing bytes into the buffer at its current position; the position
moves past the written bytes.  `sf.write` leaves the buffer positioned
at the end of the encoded data. -/
def Buffer.write (b : Buffer) (bytes : List UInt8) : Buffer :=
  { data := b.data.take b.pos ++ bytes ++ b.data.drop (b.pos + bytes.length),
    pos := b.pos + bytes.length }

/-- Embedding of `buffer.seek(n)`. -/
def Buffer.seek (b : Buffer) (n : Nat) : Buffer := { data := b.data, pos := n }

/-- Reading the buffer from its current position to the end, which is
what `StreamingResponse` does with a file-like body. -/
def Buffer.readToEnd (b : Buffer) : List UInt8 := b.data.drop b.pos

/-- Embedding of the HTTP response produced by the handler. -/
structure Response where
  status : Nat
  mediaType : String
  body : List UInt8
deriving Repr, DecidableEq

/-- Embedding of the handler `tts`, parameterized by the external
generation function (`bark.generate_audio`) over an abstract waveform
type `W` and by the WAV encoder (the codec inside `sf.write`, which
receives the waveform and the sample rate and yields the encoded bytes
written into the buffer).  Either collaborator may fail; the handler has
no try/except, so a failure short-circuits the whole computation. -/
def tts {W : Type} (generate : String → Except String W)
    (encodeWav : W → Nat → Except String (List UInt8))
    (req : TTSRequest) : Except String Response :=
  let prompt := composePrompt req
  match generate prompt with
  | Except.error e => Except.error e
  | Except.ok audio =>
    match encodeWav audio 24000 with
    | Except.error e => Except.error e
    | Except.ok bytes =>
      let buffer := Buffer.write Buffer.new bytes
      let buffer := buffer.seek 0
      Except.ok { status := 200, mediaType := "audio/wav",
                  body := buffer.readToEnd }

/-- Modelled from the spec: the hosting framework (FastAPI, not part of
the repository source) catches any fault escaping the handler and turns
it into a generic server error with no domain payload. -/
def internalServerError : Response :=
  { status := 500, mediaType := "text/plain", body := [] }

/-- Modelled from the spec: the framework-level view of a request, the
handler result on success and the generic server error on an escaped
fault. -/
def handleTTS {W : Type} (generate : String → Except String W)
    (encodeWav : W → Nat → Except String (List UInt8))
    (req : TTSRequest) : Response :=
  match tts generate encodeWav req with
  | Except.ok r => r
  | Except.error _ => internalServerError

/-- Process-wide state visible to the handler: the emotion table is the
only module-level data the handler reads. -/
structure ServerState where
  emotionPrompts : List (String × String)
deriving Repr, DecidableEq

/-- The state built at process start: the literal `EMOTION_PROMPTS`
table. -/
def initialState : ServerState := { emotionPrompts := EMOTION_PROMPTS }

/-- Prompt composition reading the table from explicit state. -/
def composePromptWith (st : ServerState) (req : TTSRequest) : String :=
  dictGet st.emotionPrompts req.emotion "" ++ " " ++ req.text

/-- The handler with the process-wide state passed and returned
explicitly.  The body of `tts` only reads `EMOTION_PROMPTS`; it contains
no assignment to any module-level name, so the state it returns is the
state it received. -/
def ttsStateful {W : Type} (generate : String → Except String W)
    (encodeWav : W → Nat → Except String (List UInt8))
    (st : ServerState) (req : TTSRequest) :
    Except String Response × ServerState :=
  let prompt := composePromptWith st req
  (match generate prompt with
   | Except.error e => Except.error e
   | Except.ok audio =>
     match encodeWav audio 24000 with
     | Except.error e => Except.error e
     | Except.ok bytes =>
       let buffer := Buffer.write Buffer.new bytes
       let buffer := buffer.seek 0
       Except.ok { status := 200, mediaType := "audio/wav",
                   body := buffer.readToEnd }, st)

/-- Stub generation function for concrete instances: always succeeds
with a unit waveform. -/
def stubGenerate : String → Except String Unit := fun _ => Except.ok ()

/-- Stub WAV encoder for concrete instances: always succeeds with a
fixed byte sequence. -/
def stubEncode (bytes : List UInt8) : Unit → Nat → Except String (List UInt8) :=
  fun _ _ => Except.ok bytes

/-- C1: for each of the three recognized emotion labels the prompt
passed to the generation function is the fixed prefix string of that
label, one space, then the raw request text.  The generation function is
instantiated with a spy that reports the exact prompt it received. -/
theorem prompt_for_recognized_emotions (W : Type)
    (encodeWav : W → Nat → Except String (List UInt8)) (text : String) :
    (composePrompt { text := text, emotion := "hype" } =
      "Excited esports commentator voice. High energy. Crowd roaring." ++ " " ++ text)
  ∧ (composePrompt { text := text, emotion := "tense" } =
      "Low, tense esports caster voice. Controlled breathing." ++ " " ++ text)
  ∧ (composePrompt { text := text, emotion := "calm" } =
      "Calm analyst voice. Confident and composed." ++ " " ++ text)
  ∧ (tts (W := W) (fun p => Except.error p) encodeWav { text := text, emotion := "hype" } =
      Except.error ("Excited esports commentator voice. High energy. Crowd roaring." ++ " " ++ text))
  ∧ (tts (W := W) (fun p => Except.error p) encodeWav { text := text, emotion := "tense" } =
      Except.error ("Low, tense esports caster voice. Controlled breathing." ++ " " ++ text))
  ∧ (tts (W := W) (fun p => Except.error p) encodeWav { text := text, emotion := "calm" } =
      Except.error ("Calm analyst voice. Confident and composed." ++ " " ++ text)) := by
  refine ⟨rfl, rfl, rfl, rfl, rfl, rfl⟩

/-- C2: for any emotion label outside the table the lookup returns the
default empty string instead of failing, and the composed prompt is a
single space followed by the raw text. -/
theorem prompt_for_unrecognized_emotion (text e : String)
    (h1 : e ≠ "hype") (h2 : e ≠ "tense") (h3 : e ≠ "calm") :
    dictGet EMOTION_PROMPTS e "" = ""
  ∧ composePrompt { text := text, emotion := e } = " " ++ text := by
  have hd : dictGet EMOTION_PROMPTS e "" = "" := by
    simp [dictGet, EMOTION_PROMPTS, beq_iff_eq, Ne.symm h1, Ne.symm h2, Ne.symm h3]
  refine ⟨hd, ?_⟩
  unfold composePrompt
  rw [show ({ text := text, emotion := e } : TTSRequest).emotion = e from rfl, hd]
  rfl

/-- Closed instance of the unrecognized-emotion fallback at the spec
example label "joyful". -/
theorem prompt_for_unrecognized_emotion_witness :
    dictGet EMOTION_PROMPTS "joyful" "" = ""
  ∧ composePrompt { text := "gg", emotion := "joyful" } = " " ++ "gg" :=
  prompt_for_unrecognized_emotion "gg" "joyful"
    (by decide) (by decide) (by decide)

/-- C3: a request body without an emotion field parses with emotion
"hype", and that request composes the hype prefix, a space, and the raw
text. -/
theorem omitted_emotion_defaults_to_hype (t : String) :
    parseTTSRequest (some t) none = some { text := t, emotion := "hype" }
  ∧ composePrompt { text := t, emotion := "hype" } =
      "Excited esports commentator voice. High energy. Crowd roaring." ++ " " ++ t :=
  ⟨rfl, rfl⟩

/-- C4: every successful response of the handler has status 200 and
media type audio-wav, and its body is the WAV encoding of the generated
waveform at exactly 24000 Hz. -/
theorem response_is_wav_at_24000 {W : Type} (generate : String → Except String W)
    (encodeWav : W → Nat → Except String (List UInt8)) (req : TTSRequest)
    (r : Response) (h : tts generate encodeWav req = Except.ok r) :
    r.status = 200 ∧ r.mediaType = "audio/wav" ∧
    ∃ w, generate (composePrompt req) = Except.ok w ∧
      encodeWav w 24000 = Except.ok r.body := by
  cases hg : generate (composePrompt req) with
  | error e => simp only [tts, hg] at h; exact Except.noConfusion h
  | ok w =>
    cases he : encodeWav w 24000 with
    | error e => simp only [tts, hg, he] at h; exact Except.noConfusion h
    | ok bytes =>
      simp only [tts, hg, he] at h
      injection h with hr
      subst hr
      refine ⟨rfl, rfl, w, rfl, ?_⟩
      rw [he]
      congr 1
      simp [Buffer.new, Buffer.write, Buffer.seek, Buffer.readToEnd]

/-- Closed instance of the response-shape theorem with a stub generator
and a stub encoder producing two bytes. -/
theorem response_is_wav_at_24000_witness :
    ({ status := 200, mediaType := "audio/wav", body := [1, 2] } : Response).status = 200
  ∧ ({ status := 200, mediaType := "audio/wav", body := [1, 2] } : Response).mediaType = "audio/wav"
  ∧ ∃ w, stubGenerate (composePrompt { text := "gg", emotion := "calm" }) = Except.ok w ∧
      stubEncode [1, 2] w 24000 =
        Except.ok ({ status := 200, mediaType := "audio/wav", body := [1, 2] } : Response).body :=
  response_is_wav_at_24000 stubGenerate (stubEncode [1, 2])
    { text := "gg", emotion := "calm" }
    { status := 200, mediaType := "audio/wav", body := [1, 2] } rfl

/-- C5: when the generation call fails, or generation succeeds and the
encoding step fails, the handler performs no recovery: the very fault
escapes the handler, and the framework turns it into the generic server
error with no partial body. -/
theorem faults_propagate_uncaught {W : Type} (generate : String → Except String W)
    (encodeWav : W → Nat → Except String (List UInt8)) (req : TTSRequest) (e : String)
    (h : generate (composePrompt req) = Except.error e ∨
         ∃ w, generate (composePrompt req) = Except.ok w ∧
           encodeWav w 24000 = Except.error e) :
    tts generate encodeWav req = Except.error e
  ∧ handleTTS generate encodeWav req = internalServerError := by
  have ht : tts generate encodeWav req = Except.error e := by
    rcases h with hg | ⟨w, hg, he⟩
    · simp [tts, hg]
    · simp [tts, hg, he]
  exact ⟨ht, by simp [handleTTS, ht, internalServerError]⟩

/-- Closed instance of fault propagation with a generator that raises. -/
theorem faults_propagate_uncaught_witness :
    tts (W := Unit) (fun _ => Except.error "model fault") (fun _ _ => Except.ok [])
      { text := "gg", emotion := "hype" } = Except.error "model fault"
  ∧ handleTTS (W := Unit) (fun _ => Except.error "model fault") (fun _ _ => Except.ok [])
      { text := "gg", emotion := "hype" } = internalServerError :=
  faults_propagate_uncaught (fun _ => Except.error "model fault") (fun _ _ => Except.ok [])
    { text := "gg", emotion := "hype" } "model fault" (Or.inl rfl)

/-- C6: the emotion table holds exactly the keys hype, tense, calm in
that order, every prefix value is non-empty, the table in the initial
process state is that literal table, and the handler returns the
process-wide state unchanged. -/
theorem emotion_table_fixed_and_immutable (W : Type)
    (generate : String → Except String W)
    (encodeWav : W → Nat → Except String (List UInt8))
    (st : ServerState) (req : TTSRequest) :
    EMOTION_PROMPTS.map Prod.fst = ["hype", "tense", "calm"]
  ∧ (EMOTION_PROMPTS.all (fun p => !(p.2 == ""))) = true
  ∧ initialState.emotionPrompts = EMOTION_PROMPTS
  ∧ (ttsStateful generate encodeWav st req).2 = st :=
  ⟨by decide, by decide, rfl, rfl⟩

/-- C7: an empty text field passes parsing unchanged and the composed
prompt is the prefix for the emotion followed by a single trailing
space. -/
theorem empty_text_accepted (e : String) :
    parseTTSRequest (some "") (some e) = some { text := "", emotion := e }
  ∧ composePrompt { text := "", emotion := e } = dictGet EMOTION_PROMPTS e "" ++ " " := by
  refine ⟨rfl, ?_⟩
  unfold composePrompt
  exact String.append_empty _

/-- C8: the table lookup is exact, case-sensitive string matching: any
label that is not character-for-character equal to one of the three
keys, which covers every variant differing only in casing or
whitespace, takes the empty-prefix fallback rather than a recognized
prefix; the casing and whitespace variants Hype, CALM and a
space-prefixed hype are exhibited concretely. -/
theorem lookup_is_case_sensitive (text e : String)
    (h1 : e ≠ "hype") (h2 : e ≠ "tense") (h3 : e ≠ "calm") :
    (dictGet EMOTION_PROMPTS e "" = ""
      ∧ composePrompt { text := text, emotion := e } = " " ++ text)
  ∧ dictGet EMOTION_PROMPTS "Hype" "" = ""
  ∧ dictGet EMOTION_PROMPTS "CALM" "" = ""
  ∧ dictGet EMOTION_PROMPTS " hype" "" = ""
  ∧ composePrompt { text := text, emotion := "Hype" } = " " ++ text
  ∧ composePrompt { text := text, emotion := "CALM" } = " " ++ text
  ∧ composePrompt { text := text, emotion := " hype" } = " " ++ text := by
  have hd : dictGet EMOTION_PROMPTS e "" = "" := by
    simp [dictGet, EMOTION_PROMPTS, beq_iff_eq, Ne.symm h1, Ne.symm h2, Ne.symm h3]
  refine ⟨⟨hd, ?_⟩, by decide, by decide, by decide, rfl, rfl, rfl⟩
  unfold composePrompt
  rw [show ({ text := text, emotion := e } : TTSRequest).emotion = e from rfl, hd]
  rfl

/-- Closed instance of case-sensitive lookup at the casing variant
Hype. -/
theorem lookup_is_case_sensitive_witness :
    (dictGet EMOTION_PROMPTS "Hype" "" = ""
      ∧ composePrompt { text := "gg", emotion := "Hype" } = " " ++ "gg")
  ∧ dictGet EMOTION_PROMPTS "Hype" "" = ""
  ∧ dictGet EMOTION_PROMPTS "CALM" "" = ""
  ∧ dictGet EMOTION_PROMPTS " hype" "" = ""
  ∧ composePrompt { text := "gg", emotion := "Hype" } = " " ++ "gg"
  ∧ composePrompt { text := "gg", emotion := "CALM" } = " " ++ "gg"
  ∧ composePrompt { text := "gg", emotion := " hype" } = " " ++ "gg" :=
  lookup_is_case_sensitive "gg" "Hype" (by decide) (by decide) (by decide)

/-- C9: the handler is deterministic and stateless: equal text and
emotion inputs give the same composed prompt and the same full result,
and the process-wide state is returned unchanged. -/
theorem handler_deterministic_and_stateless {W : Type}
    (generate : String → Except String W)
    (encodeWav : W → Nat → Except String (List UInt8)) (st : ServerState)
    (req₁ req₂ : TTSRequest)
    (htext : req₁.text = req₂.text) (hemo : req₁.emotion = req₂.emotion) :
    composePromptWith st req₁ = composePromptWith st req₂
  ∧ ttsStateful generate encodeWav st req₁ = ttsStateful generate encodeWav st req₂
  ∧ (ttsStateful generate encodeWav st req₁).2 = st := by
  obtain ⟨t₁, e₁⟩ := req₁
  obtain ⟨t₂, e₂⟩ := req₂
  cases htext
  cases hemo
  exact ⟨rfl, rfl, rfl⟩

/-- Closed instance of determinism and statelessness on a concrete
request pair. -/
theorem handler_deterministic_and_stateless_witness :
    composePromptWith initialState { text := "gg", emotion := "calm" } =
      composePromptWith initialState { text := "gg", emotion := "calm" }
  ∧ ttsStateful (W := Unit) (fun _ => Except.ok ()) (fun _ _ => Except.ok [])
      initialState { text := "gg", emotion := "calm" } =
    ttsStateful (W := Unit) (fun _ => Except.ok ()) (fun _ _ => Except.ok [])
      initialState { text := "gg", emotion := "calm" }
  ∧ (ttsStateful (W := Unit) (fun _ => Except.ok ()) (fun _ _ => Except.ok [])
      initialState { text := "gg", emotion := "calm" }).2 = initialState :=
  handler_deterministic_and_stateless (fun _ => Except.ok ()) (fun _ _ => Except.ok [])
    initialState { text := "gg", emotion := "calm" } { text := "gg", emotion := "calm" }
    rfl rfl

/-- C10: the streamed body is the complete encoder output from offset 0:
after writing, the buffer position sits at the end of the data, the
rewind to 0 makes reading yield every encoded byte in order, and the
handler response body is exactly the encoded byte sequence. -/
theorem streamed_body_is_complete_encoding {W : Type}
    (generate : String → Except String W)
    (encodeWav : W → Nat → Except String (List UInt8)) (req : TTSRequest)
    (w : W) (bytes : List UInt8)
    (hg : generate (composePrompt req) = Except.ok w)
    (he : encodeWav w 24000 = Except.ok bytes) :
    (Buffer.write Buffer.new bytes).pos = bytes.length
  ∧ ((Buffer.write Buffer.new bytes).seek 0).readToEnd = bytes
  ∧ tts generate encodeWav req =
      Except.ok { status := 200, mediaType := "audio/wav", body := bytes } := by
  refine ⟨by simp [Buffer.new, Buffer.write],
          by simp [Buffer.new, Buffer.write, Buffer.seek, Buffer.readToEnd], ?_⟩
  simp only [tts, hg, he]
  congr 1
  simp [Buffer.new, Buffer.write, Buffer.seek, Buffer.readToEnd]

/-- Closed instance of the complete-streaming theorem with a stub
generator and a three-byte encoder output. -/
theorem streamed_body_is_complete_encoding_witness :
    (Buffer.write Buffer.new [7, 8, 9]).pos = ([7, 8, 9] : List UInt8).length
  ∧ ((Buffer.write Buffer.new [7, 8, 9]).seek 0).readToEnd = [7, 8, 9]
  ∧ tts (W := Unit) (fun _ => Except.ok ()) (fun _ _ => Except.ok [7, 8, 9])
      { text := "gg", emotion := "tense" } =
      Except.ok { status := 200, mediaType := "audio/wav", body := [7, 8, 9] } :=
  streamed_body_is_complete_encoding (fun _ => Except.ok ()) (fun _ _ => Except.ok [7, 8, 9])
    { text := "gg", emotion := "tense" } () [7, 8, 9] rfl rfl

end TTSServer
